import Mathlib

/-!
Verification of the polymarket-apis core: canonical value validators
(`types/common.py`), the EIP-712 CLOB authentication signing pipeline
(`utilities/signing/eip712.py`, `signer.py`, `model.py`) and the GraphQL
position balance rescaling (`types/data_types.py`).

Python strings are modelled as Lean `String` (working over `String.data`
where convenient), Python `bytes` as `List Nat` with every element below
256, and Python unbounded `int` as `Int`/`Nat`.  Fallible Python functions
(those raising `ValueError`/`TypeError`) are modelled as `Except String`
returning the raised message.

The cryptographic primitives live in third-party libraries
(`eth_utils.keccak`, `poly_eip712_structs`, `eth_account`), not in this
repository; they are embedded concretely below (Keccak-256 is implemented
in full; the secp256k1 signing core is implemented from the spec, see the
doc comments marked `Modelled from the spec:`).
-/

set_option autoImplicit false

/-! ## Bytes and hex utilities -/

/-- The lowercase hex character of a nibble (values are taken mod 16), as
used by Python's `bytes.hex()`. -/
def hexDigitChar (n : Nat) : Char :=
  Nat.digitChar (n % 16)

/-- The two lowercase hex characters of one byte, as produced by
`bytes.hex()`.  Bytes are below 256 wherever this is applied. -/
def byteToHexChars (b : Nat) : List Char :=
  [hexDigitChar (b / 16), hexDigitChar b]

/-- `bytes.hex()`: lowercase hex characters of a byte string, no prefix. -/
def hexCharsOfBytes (bs : List Nat) : List Char :=
  bs.foldr (fun b acc => byteToHexChars b ++ acc) []

/-- Numeric value of one hex character (case-insensitive); non-hex
characters contribute 0 (Python would raise, but such inputs never reach
this helper in the modelled pipeline). -/
def hexCharVal (c : Char) : Nat :=
  if '0' ≤ c ∧ c ≤ '9' then c.toNat - '0'.toNat
  else if 'a' ≤ c ∧ c ≤ 'f' then c.toNat - 'a'.toNat + 10
  else if 'A' ≤ c ∧ c ≤ 'F' then c.toNat - 'A'.toNat + 10
  else 0

/-- Strip one leading `0x` from a character list, if present. -/
def strip0x (l : List Char) : List Char :=
  if l.take 2 = ['0', 'x'] then l.drop 2 else l

/-- `int(s, 16)` on a (possibly `0x`-prefixed) hex string, case-insensitive. -/
def hexNatOf (s : String) : Nat :=
  (strip0x s.data).foldl (fun acc c => acc * 16 + hexCharVal c) 0

/-- Big-endian byte value of a byte string (`int.from_bytes(bs, "big")`). -/
def natOfBytes (bs : List Nat) : Nat :=
  bs.foldl (fun acc b => acc * 256 + b % 256) 0

/-- `x.to_bytes(32, "big")`: the 32-byte big-endian encoding.  Python
raises `OverflowError` outside `[0, 2^256)`; the model reduces modulo
`2^256` and agrees with Python on every accepted value. -/
def be32 (x : Nat) : List Nat :=
  (List.range 32).map (fun i => x >>> (8 * (31 - i)) % 256)

/-- UTF-8 encoding of a single character. -/
def utf8Char (c : Char) : List Nat :=
  let n := c.toNat
  if n < 0x80 then [n]
  else if n < 0x800 then [0xc0 ||| (n >>> 6), 0x80 ||| (n &&& 63)]
  else if n < 0x10000 then
    [0xe0 ||| (n >>> 12), 0x80 ||| ((n >>> 6) &&& 63), 0x80 ||| (n &&& 63)]
  else
    [0xf0 ||| (n >>> 18), 0x80 ||| ((n >>> 12) &&& 63),
     0x80 ||| ((n >>> 6) &&& 63), 0x80 ||| (n &&& 63)]

/-- UTF-8 encoding of a string (`s.encode()` in Python). -/
def utf8Bytes (s : String) : List Nat :=
  s.data.foldr (fun c acc => utf8Char c ++ acc) []

/-! ## Keccak-256

Concrete implementation of the original Keccak-256 (pad byte `0x01`,
rate 136, as used throughout Ethereum and by `eth_utils.crypto.keccak`).
Lanes are 64-bit values held as `Nat` below `2^64`; the 5x5 state is a
flat 25-element list indexed by `x + 5 * y`. -/

/-- 64-bit mask. -/
def mask64 : Nat := 18446744073709551615

/-- Left-rotation of a 64-bit lane. -/
def rot64 (x k : Nat) : Nat :=
  ((x <<< (k % 64)) &&& mask64) ||| (x >>> (64 - k % 64))

/-- List lookup defaulting to 0, used for state/lane access. -/
def lget (l : List Nat) (i : Nat) : Nat := l.getD i 0

/-- Keccak round constants. -/
def keccakRC : List Nat :=
  [0x0000000000000001, 0x0000000000008082, 0x800000000000808a, 0x8000000080008000,
   0x000000000000808b, 0x0000000080000001, 0x8000000080008081, 0x8000000000008009,
   0x000000000000008a, 0x0000000000000088, 0x0000000080008009, 0x000000008000000a,
   0x000000008000808b, 0x800000000000008b, 0x8000000000008089, 0x8000000000008003,
   0x8000000000008002, 0x8000000000000080, 0x000000000000800a, 0x800000008000000a,
   0x8000000080008081, 0x8000000000008080, 0x0000000080000001, 0x8000000080008008]

/-- The rho rotation offsets as an association list keyed by `x + 5 * y`,
generated by the reference walk: start at `(x, y) = (1, 0)`; at step `t`
the offset is `(t+1)(t+2)/2 mod 64`, then move to `(y, (2x+3y) mod 5)`.
Lane 0 is not visited and keeps offset 0. -/
def keccakRotPairs : List (Nat × Nat) :=
  (((List.range 24).foldl
    (fun (st : (Nat × Nat) × List (Nat × Nat)) t =>
      ((st.1.2, (2 * st.1.1 + 3 * st.1.2) % 5),
       (st.1.1 + 5 * st.1.2, (t + 1) * (t + 2) / 2 % 64) :: st.2))
    ((1, 0), [])).2)

/-- Rotation offset of one lane. -/
def keccakRotOf (i : Nat) : Nat :=
  ((keccakRotPairs.find? (fun p => p.1 == i)).map (fun p => p.2)).getD 0

/-- Theta step. -/
def keccakTheta (a : List Nat) : List Nat :=
  let c := (List.range 5).map (fun x =>
    lget a x ^^^ lget a (x + 5) ^^^ lget a (x + 10) ^^^ lget a (x + 15) ^^^ lget a (x + 20))
  let d := (List.range 5).map (fun x =>
    lget c ((x + 4) % 5) ^^^ rot64 (lget c ((x + 1) % 5)) 1)
  (List.range 25).map (fun i => lget a i ^^^ lget d (i % 5))

/-- Combined rho and pi steps: target lane `(tx, ty)` receives the rotated
source lane `((tx + 3 * ty) % 5, tx)`. -/
def keccakRhoPi (a : List Nat) : List Nat :=
  (List.range 25).map (fun j =>
    let tx := j % 5
    let ty := j / 5
    let src := (tx + 3 * ty) % 5 + 5 * tx
    rot64 (lget a src) (keccakRotOf src))

/-- Chi step. -/
def keccakChi (a : List Nat) : List Nat :=
  (List.range 25).map (fun j =>
    let x := j % 5
    let row := 5 * (j / 5)
    lget a j ^^^ ((mask64 ^^^ lget a (row + (x + 1) % 5)) &&& lget a (row + (x + 2) % 5)))

/-- Iota step. -/
def keccakIota (rc : Nat) (a : List Nat) : List Nat :=
  match a with
  | [] => []
  | x :: rest => (x ^^^ rc) :: rest

/-- The Keccak-f[1600] permutation (24 rounds). -/
def keccakF (st : List Nat) : List Nat :=
  keccakRC.foldl (fun s rc => keccakIota rc (keccakChi (keccakRhoPi (keccakTheta s)))) st

/-- Little-endian 64-bit value of up to 8 bytes. -/
def le64 (bs : List Nat) : Nat :=
  bs.foldr (fun b acc => b % 256 + 256 * acc) 0

/-- Little-endian 8-byte encoding of a 64-bit lane. -/
def le64Bytes (x : Nat) : List Nat :=
  (List.range 8).map (fun j => x >>> (8 * j) % 256)

/-- XOR one 136-byte rate block into the state. -/
def keccakAbsorbBlock (st : List Nat) (block : List Nat) : List Nat :=
  (List.range 25).map (fun i => lget st i ^^^ le64 ((block.drop (8 * i)).take 8))

/-- Absorb all rate blocks of an already padded message. -/
def keccakAbsorb (st : List Nat) (l : List Nat) : List Nat :=
  match l with
  | [] => st
  | b :: rest =>
    keccakAbsorb (keccakF (keccakAbsorbBlock st ((b :: rest).take 136))) ((b :: rest).drop 136)
termination_by l.length
decreasing_by
  simp [List.length_drop]
  omega

/-- Multi-rate padding with the Keccak domain byte `0x01`. -/
def keccakPad (m : List Nat) : List Nat :=
  let padLen := 136 - m.length % 136
  m ++ (if padLen = 1 then [0x81] else 0x01 :: (List.replicate (padLen - 2) 0 ++ [0x80]))

/-- Keccak-256 of a byte string: 32 output bytes
(`eth_utils.crypto.keccak`). -/
def keccakBytes (m : List Nat) : List Nat :=
  let st := keccakAbsorb (List.replicate 25 0) (keccakPad m)
  (List.range 4).foldr (fun i acc => le64Bytes (lget st i) ++ acc) []

/-! ## Canonical value validators (`types/common.py`)

The validators accept `str | HexBytes | bytes`.  `bytes.hex()` yields
unprefixed lowercase hex; `HexBytes.hex()` yields `0x`-prefixed lowercase
hex.  Either way the subsequent normalization step prepends `0x` when it
is missing, so both byte flavours land on the same normalized string. -/

/-- A validator input: a Python `str`, plain `bytes`, or `HexBytes`. -/
inductive VInput where
  | str (s : String)
  | bytes (bs : List Nat)
  | hexBytes (bs : List Nat)

/-- The character list a validator works on after the
`isinstance(v, HexBytes | bytes): v = v.hex()` step. -/
def vChars : VInput → List Char
  | .str s => s.data
  | .bytes bs => hexCharsOfBytes bs
  | .hexBytes bs => '0' :: 'x' :: hexCharsOfBytes bs

/-- `if not v.startswith("0x"): v = "0x" + v`. -/
def addZx (l : List Char) : List Char :=
  if l.take 2 = ['0', 'x'] then l else '0' :: 'x' :: l

/-- Membership in `[a-fA-F0-9]` (the hex classes of both regexes; the
`re.IGNORECASE` flag on the address regex adds no further characters). -/
def isHexChar (c : Char) : Bool :=
  decide (('0' ≤ c ∧ c ≤ '9') ∨ ('a' ≤ c ∧ c ≤ 'f') ∨ ('A' ≤ c ∧ c ≤ 'F'))

/-- Exact match of `0x[a-fA-F0-9]{n}` against the whole character list. -/
def coreHex (n : Nat) (l : List Char) : Bool :=
  decide (l.take 2 = ['0', 'x']) && decide (l.length = n + 2) && (l.drop 2).all isHexChar

/-- Python `re.match` with an `^...$` pattern: `$` matches at the end of
the string or just before a single newline at the end of the string. -/
def pyDollarMatch (core : List Char → Bool) (l : List Char) : Bool :=
  core l || (decide (l.getLast? = some '\n') && core l.dropLast)

/-- `validate_eth_address` from `types/common.py`: convert bytes to hex,
prepend `0x` if missing, require the (case-insensitive) 40-hex-character
pattern, and return the normalized string unchanged (the `ValueError` is
the spec's `FormatError`). -/
def validate_eth_address (v : VInput) : Except String String :=
  if pyDollarMatch (coreHex 40) (addZx (vChars v)) then .ok (String.mk (addZx (vChars v)))
  else .error ("Invalid Ethereum address format: " ++ String.mk (addZx (vChars v)))

/-- `validate_keccak256` from `types/common.py`: same prefixing rule with
the 64-hex-character pattern. -/
def validate_keccak256 (v : VInput) : Except String String :=
  if pyDollarMatch (coreHex 64) (addZx (vChars v)) then .ok (String.mk (addZx (vChars v)))
  else .error ("Invalid Keccak256 hash format: " ++ String.mk (addZx (vChars v)))

/-- `validate_keccak_or_padded` from `types/common.py`: prefixing rule,
then a direct length-66 and all-hex check (no regex). -/
def validate_keccak_or_padded (v : VInput) : Except String String :=
  if decide ((addZx (vChars v)).length = 66) && ((addZx (vChars v)).drop 2).all isHexChar then
    .ok (String.mk (addZx (vChars v)))
  else
    .error ("Invalid hash format: expected 66 characters (0x + 64 hex), got "
      ++ toString (addZx (vChars v)).length ++ ": " ++ String.mk (addZx (vChars v)))

/-! ## GQLPosition balance parsing (`types/data_types.py`)

Python floats are modelled as exact rationals, so `value / 10**6` is exact
division in `ℚ`. -/

/-- The raw `balance` value handed to the validator: a string or a number. -/
inductive BalanceInput where
  | bstr (s : String)
  | bnum (q : ℚ)

/-- Value of a nonempty all-digit character list. -/
def decDigitsVal (l : List Char) : Option Nat :=
  if l ≠ [] ∧ l.all (fun c => decide ('0' ≤ c ∧ c ≤ '9')) then
    some (l.foldl (fun acc c => acc * 10 + (c.toNat - '0'.toNat)) 0)
  else none

/-- Python `int(s)` on plain decimal-integer literals: an optional sign
followed by decimal digits (the claim's domain; surrounding whitespace and
underscore separators are out of scope). -/
def pyInt (s : String) : Option Int :=
  match s.data with
  | '-' :: rest => (decDigitsVal rest).map (fun n => -(n : Int))
  | '+' :: rest => (decDigitsVal rest).map (fun n => (n : Int))
  | l => (decDigitsVal l).map (fun n => (n : Int))

/-- `GQLPosition._parse_balance`: a string balance is parsed with `int`
first; the result is divided by `10**6`. -/
def parse_balance (v : BalanceInput) : Except String ℚ :=
  match v with
  | .bstr s =>
    match pyInt s with
    | some n => .ok ((n : ℚ) / 10 ^ 6)
    | none => .error ("invalid literal for int() with base 10: " ++ s)
  | .bnum q => .ok (q / 10 ^ 6)

/-! ## secp256k1 and deterministic ECDSA

Modelled from the spec: the repository signs through `eth_account`
(`Account.from_key`, `Account.unsafe_sign_hash`), which is not part of
this repository.  Spec section 4.2: signing "produces a deterministic
(RFC-6979-style) ECDSA signature over the given 32-byte digest using the
secp256k1 curve" and "returns the 65-byte r‖s‖v encoding, hex-formatted
with 0x prefix".  The curve arithmetic and the r‖s‖v assembly are
implemented concretely below; the RFC-6979 nonce derivation (HMAC-SHA256
internally) is modelled by a deterministic Keccak-based derivation — every
settled claim depends only on determinism and on the output shape of the
signature, not on which deterministic nonce is produced. -/

/-- The secp256k1 field prime. -/
def secpP : Nat := 2 ^ 256 - 2 ^ 32 - 977

/-- The secp256k1 group order. -/
def secpN : Nat := 0xfffffffffffffffffffffffffffffffebaaedce6af48a03bbfd25e8cd0364141

/-- x-coordinate of the secp256k1 base point. -/
def secpGx : Nat := 0x79be667ef9dcbbac55a06295ce870b07029bfcdb2dce28d959f2815b16f81798

/-- y-coordinate of the secp256k1 base point. -/
def secpGy : Nat := 0x483ada7726a3c4655da4fbfc0e1108a8fd17b448a68554199c47d08ffb10d4b8

/-- Square-and-multiply modular exponentiation over 256-bit exponents. -/
def powMod (b e m : Nat) : Nat :=
  (List.range 256).foldl
    (fun acc i =>
      let acc2 := acc * acc % m
      if e.testBit (255 - i) then acc2 * (b % m) % m else acc2)
    (1 % m)

/-- Inverse in the field `F_p` via Fermat's little theorem. -/
def fInv (a : Nat) : Nat := powMod a (secpP - 2) secpP

/-- Inverse modulo the group order. -/
def nInv (a : Nat) : Nat := powMod a (secpN - 2) secpN

/-- Field subtraction on representatives. -/
def fSub (a b : Nat) : Nat := (a % secpP + (secpP - b % secpP)) % secpP

/-- An affine secp256k1 point; `none` is the point at infinity. -/
def ECPoint : Type := Option (Nat × Nat)

/-- Point addition (including doubling and the inverse case). -/
def ecAdd (p q : ECPoint) : ECPoint :=
  match p, q with
  | none, q => q
  | p, none => p
  | some (x1, y1), some (x2, y2) =>
    if x1 % secpP = x2 % secpP then
      if (y1 + y2) % secpP = 0 then none
      else
        let l := 3 * x1 * x1 % secpP * fInv (2 * y1 % secpP) % secpP
        let x3 := fSub (l * l) (x1 + x2)
        some (x3, fSub (l * fSub x1 x3) y1)
    else
      let l := fSub y2 y1 * fInv (fSub x2 x1) % secpP
      let x3 := fSub (l * l) (x1 + x2)
      some (x3, fSub (l * fSub x1 x3) y1)

/-- Double-and-add scalar multiplication over 256-bit scalars. -/
def ecMul (k : Nat) (p : ECPoint) : ECPoint :=
  (List.range 256).foldl
    (fun acc i =>
      let acc2 := ecAdd acc acc
      if k.testBit (255 - i) then ecAdd acc2 p else acc2)
    none

/-- The secp256k1 base point. -/
def ecG : ECPoint := some (secpGx, secpGy)

/-- Modelled from the spec: deterministic ECDSA nonce for `(key, digest)`
(standing in for eth_keys' RFC-6979 HMAC-SHA256 derivation; deterministic
and key-and-digest-dependent, as the spec requires). -/
def deterministicK (d z : Nat) : Nat :=
  let k0 := natOfBytes (keccakBytes (be32 d ++ be32 z)) % secpN
  if k0 = 0 then 1 else k0

/-- Deterministic ECDSA over secp256k1: returns `(r, s, v)` with the low-s
normalization and `v ∈ {27, 28}`, as `eth_account` produces. -/
def ecdsaSign (d z : Nat) : Nat × Nat × Nat :=
  let k := deterministicK d z
  match ecMul k ecG with
  | none => (0, 0, 27)
  | some (xr, yr) =>
    let r := xr % secpN
    let s := nInv k * (z % secpN + r * (d % secpN)) % secpN
    let recid := yr % 2
    if secpN < 2 * s then (r, secpN - s, 27 + (1 - recid)) else (r, s, 27 + recid)

/-- The 65-byte `r ‖ s ‖ v` signature encoding. -/
def sigBytes : Nat × Nat × Nat → List Nat
  | (r, s, v) => be32 r ++ be32 s ++ [v % 256]

/-! ## Key holder (`utilities/signing/signer.py`) -/

/-- `Signer`: holds the constructor arguments `private_key` and
`chain_id`.  Chain ids are nonnegative in every use (137/1); they are
modelled as `Nat` so that the uint256 domain encoding is total. -/
structure Signer where
  private_key : String
  chain_id : Nat

/-- Modelled from the spec: `Account.from_key` format-validates the key —
a 32-byte value given as a hex string with or without `0x` prefix.
Returns its numeric value on success. -/
def parseKey (s : String) : Option Nat :=
  let body := strip0x s.data
  if body.length = 64 ∧ body.all isHexChar = true then
    some (body.foldl (fun acc c => acc * 16 + hexCharVal c) 0)
  else none

/-- Total key value used by signing/derivation (valid signers always have
a parseable key). -/
def parseKeyD (s : String) : Nat := (parseKey s).getD 0

/-- `Signer.__init__`: both arguments are mandatory; the `ValueError`s
model the spec's `ConfigurationError`.  On success the signer stores both
arguments unchanged. -/
def mkSigner (private_key : Option String) (chain_id : Option Nat) : Except String Signer :=
  match private_key with
  | none => .error "private_key must not be None"
  | some pk =>
    match chain_id with
    | none => .error "chain_id must not be None"
    | some cid =>
      match parseKey pk with
      | none => .error ("The private key must be exactly 32 bytes long, instead of "
          ++ toString (strip0x pk.data).length ++ " bytes.")
      | some _ => .ok ⟨pk, cid⟩

/-- Keccak-based Ethereum address of a private key: last 20 bytes of the
hash of the uncompressed public key (modelled from the spec, section 4.2). -/
def addressValOfKey (sk : Nat) : Nat :=
  match ecMul sk ecG with
  | none => 0
  | some (px, py) => natOfBytes ((keccakBytes (be32 px ++ be32 py)).drop 12)

/-- Big-endian 20-byte encoding of an address value. -/
def be20 (x : Nat) : List Nat :=
  (List.range 20).map (fun i => x >>> (8 * (19 - i)) % 256)

/-- EIP-55 mixed-case checksum string of a 20-byte address, as
`eth_account` returns from `LocalAccount.address`. -/
def toChecksumAddress (a : Nat) : String :=
  let hx := hexCharsOfBytes (be20 a)
  let hsh := keccakBytes (hx.map Char.toNat)
  let nib := fun (i : Nat) => if i % 2 = 0 then lget hsh (i / 2) / 16 else lget hsh (i / 2) % 16
  String.mk ('0' :: 'x' ::
    (List.range 40).map (fun i => if 8 ≤ nib i then (hx.getD i '0').toUpper else hx.getD i '0'))

/-- `Signer.address()`: the checksummed address derived from the key. -/
def signer_address (s : Signer) : String :=
  toChecksumAddress (addressValOfKey (parseKeyD s.private_key))

/-- `Signer.get_chain_id()`. -/
def signer_get_chain_id (s : Signer) : Nat := s.chain_id

/-- `Signer.sign(message_hash)`: deterministic ECDSA over the given
digest; the 65-byte signature is hex-encoded `0x`-prefixed
(`HexBytes.hex()`). -/
def signer_sign (s : Signer) (message_hash : String) : String :=
  String.mk ('0' :: 'x' ::
    hexCharsOfBytes (sigBytes (ecdsaSign (parseKeyD s.private_key) (hexNatOf message_hash))))

/-! ## EIP-712 encoding and the CLOB auth message
(`utilities/signing/eip712.py`, `utilities/signing/model.py`)

The typed-data hashing is performed by the external `poly_eip712_structs`
library; it is modelled from the spec, section 4.3: type hash of the
parenthesized member list in declaration order, string members hashed with
Keccak-256, uint members 32-byte big-endian, addresses left-padded to 32
bytes, and the final `0x1901`-prefixed digest. -/

/-- Domain name constant from `eip712.py`. -/
def CLOB_DOMAIN_NAME : String := "ClobAuthDomain"

/-- Domain version constant from `eip712.py`. -/
def CLOB_VERSION : String := "1"

/-- Attestation message constant from `eip712.py`. -/
def MSG_TO_SIGN : String := "This message attests that I control the given wallet"

/-- The EIP-712 domain built by `make_domain(name=..., version=...,
chainId=...)`: exactly the three supplied fields. -/
structure EIP712Domain where
  name : String
  version : String
  chainId : Nat

/-- `get_clob_auth_domain` from `eip712.py`. -/
def get_clob_auth_domain (chain_id : Nat) : EIP712Domain :=
  ⟨CLOB_DOMAIN_NAME, CLOB_VERSION, chain_id⟩

/-- The `ClobAuth` struct from `model.py`, fields in declaration order:
address, timestamp, nonce, message. -/
structure ClobAuth where
  address : String
  timestamp : String
  nonce : Nat
  message : String

/-- Type string of the domain: member types in declaration order. -/
def domainTypeString : String := "EIP712Domain(string name,string version,uint256 chainId)"

/-- Type string of `ClobAuth`: member types in declaration order. -/
def clobAuthTypeString : String :=
  "ClobAuth(address address,string timestamp,uint256 nonce,string message)"

/-- EIP-712 type hash: Keccak-256 of the UTF-8 type string. -/
def typeHashOf (ty : String) : List Nat := keccakBytes (utf8Bytes ty)

/-- Domain separator:
`Keccak256(typeHash(Domain) ‖ Keccak256(name) ‖ Keccak256(version) ‖ abiEncode(chainId))`. -/
def domainSeparator (name version : String) (chainId : Nat) : List Nat :=
  keccakBytes (typeHashOf domainTypeString
    ++ keccakBytes (utf8Bytes name) ++ keccakBytes (utf8Bytes version) ++ be32 chainId)

/-- `hash_struct` of the domain object. -/
def hashDomain (d : EIP712Domain) : List Nat :=
  domainSeparator d.name d.version d.chainId

/-- `encode_value` of an `address` member: the hex string's value,
left-padded to 32 bytes. -/
def encodeAddressValue (a : String) : List Nat := be32 (hexNatOf a)

/-- `hash_struct` of a `ClobAuth` value: type hash followed by the encoded
members in declaration order (strings Keccak-hashed, uint 32-byte
big-endian). -/
def hashStructClobAuth (m : ClobAuth) : List Nat :=
  keccakBytes (typeHashOf clobAuthTypeString
    ++ encodeAddressValue m.address
    ++ keccakBytes (utf8Bytes m.timestamp)
    ++ be32 m.nonce
    ++ keccakBytes (utf8Bytes m.message))

/-- `EIP712Struct.signable_bytes(domain)`:
`0x1901 ‖ domainSeparator ‖ hashStruct(struct)`. -/
def signable_bytes (m : ClobAuth) (d : EIP712Domain) : List Nat :=
  [0x19, 0x01] ++ hashDomain d ++ hashStructClobAuth m

/-- `prepend_zx` from `py_order_utils`: add `0x` when missing. -/
def pyPrependZx (s : String) : String :=
  if s.data.take 2 = ['0', 'x'] then s else String.mk ('0' :: 'x' :: s.data)

/-- The `ClobAuth` value built inside `sign_clob_auth_message`. -/
def clobAuthMsgOf (signer : Signer) (timestamp : Int) (nonce : Nat) : ClobAuth :=
  ⟨signer_address signer, toString timestamp, nonce, MSG_TO_SIGN⟩

/-- The 32-byte digest signed by `sign_clob_auth_message`:
`keccak(clob_auth_msg.signable_bytes(get_clob_auth_domain(chain_id)))`. -/
def clobAuthDigest (signer : Signer) (timestamp : Int) (nonce : Nat) : List Nat :=
  keccakBytes (signable_bytes (clobAuthMsgOf signer timestamp nonce)
    (get_clob_auth_domain (signer_get_chain_id signer)))

/-- `sign_clob_auth_message` from `eip712.py`: hash the signable bytes,
hex it with `prepend_zx`, sign the digest, and return the `0x`-prefixed
signature hex. -/
def sign_clob_auth_message (signer : Signer) (timestamp : Int) (nonce : Nat) : String :=
  let auth_struct_hash :=
    pyPrependZx (String.mk (hexCharsOfBytes (clobAuthDigest signer timestamp nonce)))
  pyPrependZx (signer_sign signer auth_struct_hash)

/-- Whether a modelled Python call raised. -/
def isErr {ε α : Type} : Except ε α → Bool
  | .error _ => true
  | .ok _ => false

/-! ## Concrete test values -/

/-- The spec's checksum test vector, hex body all lowercase. -/
def lowerTestAddr : String := "0x5aaeb6053f3e94c9b9a09f33669435e7ef1beaed"

/-- The spec's checksum test vector in EIP-55 mixed case. -/
def mixedTestAddr : String := "0x5aAeb6053F3E94C9b9A09f33669435E7Ef1BeAed"

/-- 64 hex characters followed by one newline: matched by the `$`-anchored
regex of `validate_keccak256`. -/
def newlineHashA : String := "0x" ++ String.mk (List.replicate 64 'a') ++ "\n"

/-- A second trailing-newline input, for the validator comparison. -/
def newlineHashB : String := "0x" ++ String.mk (List.replicate 64 'b') ++ "\n"

/-- A well-formed 32-byte private key (value 1). -/
def witnessKeyHex : String := "0x" ++ String.mk (List.replicate 63 '0') ++ "1"

/-- A canonical 66-character hash string. -/
def plainHashC : String := "0x" ++ String.mk (List.replicate 64 'c')

/-! ## Helper lemmas -/

theorem hexCharsOfBytes_nil : hexCharsOfBytes [] = [] := rfl

theorem hexCharsOfBytes_cons (b : Nat) (t : List Nat) :
    hexCharsOfBytes (b :: t) = byteToHexChars b ++ hexCharsOfBytes t := rfl

theorem length_hexCharsOfBytes (bs : List Nat) :
    (hexCharsOfBytes bs).length = 2 * bs.length := by
  induction bs with
  | nil => rfl
  | cons b t ih =>
    simp [hexCharsOfBytes_cons, byteToHexChars, ih]
    omega

theorem isHexChar_hexDigitChar (n : Nat) : isHexChar (hexDigitChar n) = true := by
  have h : n % 16 < 16 := Nat.mod_lt _ (by decide)
  have hall : ∀ m, m < 16 → isHexChar (Nat.digitChar m) = true := by decide
  exact hall _ h

theorem all_isHexChar_hexCharsOfBytes (bs : List Nat) :
    (hexCharsOfBytes bs).all isHexChar = true := by
  induction bs with
  | nil => rfl
  | cons b t ih =>
    simp [hexCharsOfBytes_cons, byteToHexChars, List.all_append, ih, isHexChar_hexDigitChar]

theorem length_be32 (x : Nat) : (be32 x).length = 32 := by simp [be32]

theorem length_sigBytes (t : Nat × Nat × Nat) : (sigBytes t).length = 65 := by
  obtain ⟨r, s, v⟩ := t
  simp [sigBytes, length_be32]

theorem coreHex_take2 {n : Nat} {l : List Char} (h : coreHex n l = true) :
    l.take 2 = ['0', 'x'] ∧ l.length = n + 2 := by
  unfold coreHex at h
  simp only [Bool.and_eq_true, decide_eq_true_eq] at h
  exact ⟨h.1.1, h.1.2⟩

theorem pyDollarMatch_take2 {n : Nat} {l : List Char}
    (h : pyDollarMatch (coreHex n) l = true) : l.take 2 = ['0', 'x'] := by
  unfold pyDollarMatch at h
  simp only [Bool.or_eq_true, Bool.and_eq_true, decide_eq_true_eq] at h
  rcases h with h | ⟨-, h⟩
  · exact (coreHex_take2 h).1
  · obtain ⟨htake, hlen⟩ := coreHex_take2 h
    rw [List.dropLast_eq_take, List.take_take] at htake
    rw [List.length_dropLast] at hlen
    have hlen2 : l.length = n + 3 := by omega
    rwa [hlen2, show min 2 (n + 3 - 1) = 2 by omega] at htake

theorem addZx_of_take2 {l : List Char} (h : l.take 2 = ['0', 'x']) : addZx l = l := by
  unfold addZx
  rw [if_pos h]

/-! ## Claim theorems -/

/-- Claim C1, counterexample: `validate_eth_address` applies no checksum
casing — validating the all-lowercase variant of the spec's test vector
returns the all-lowercase string, not the EIP-55 mixed-case string the
claim requires. -/
theorem claim1_counterexample :
    validate_eth_address (.str lowerTestAddr) = .ok lowerTestAddr ∧
    lowerTestAddr ≠ mixedTestAddr :=
  ⟨rfl, by decide⟩

/-- Claim C1, amended: for every accepted input, `validate_eth_address`
returns the input's hex text with `0x` prepended when missing and the
hex-digit casing exactly as given in the input (no checksum transform). -/
theorem claim1_address_casing_preserved (v : VInput) (w : String)
    (h : validate_eth_address v = .ok w) : w = String.mk (addZx (vChars v)) := by
  unfold validate_eth_address at h
  split at h
  · exact (Except.ok.inj h).symm
  · exact absurd h (by simp)

/-- Claim C1, witness for the amended theorem at the lowercase test vector. -/
theorem claim1_witness :
    validate_eth_address (.str lowerTestAddr) = .ok lowerTestAddr ∧
    lowerTestAddr = String.mk (addZx (vChars (.str lowerTestAddr))) :=
  ⟨rfl, claim1_address_casing_preserved (.str lowerTestAddr) lowerTestAddr rfl⟩

/-- Claim C6: `validate_keccak256` rejects 63- and 65-hex-character
bodies and accepts exactly 64 — but, against its own comment
("0x followed by 64 hex characters"), it also accepts a 64-hex body
followed by one newline, because Python's `$` matches before a trailing
newline.  The last conjunct evaluates the code at the failing input. -/
theorem claim6_keccak256_newline_bug :
    validate_keccak256 (.str ("0x" ++ String.mk (List.replicate 63 'a')))
      = .error ("Invalid Keccak256 hash format: " ++ ("0x" ++ String.mk (List.replicate 63 'a'))) ∧
    validate_keccak256 (.str ("0x" ++ String.mk (List.replicate 64 'a')))
      = .ok ("0x" ++ String.mk (List.replicate 64 'a')) ∧
    validate_keccak256 (.str ("0x" ++ String.mk (List.replicate 65 'a')))
      = .error ("Invalid Keccak256 hash format: " ++ ("0x" ++ String.mk (List.replicate 65 'a'))) ∧
    validate_keccak256 (.str newlineHashA) = .ok newlineHashA :=
  ⟨rfl, rfl, rfl, rfl⟩

/-- Claim C7: both validators are idempotent — re-validating an accepted
output returns the same value. -/
theorem claim7_validators_idempotent :
    (∀ (v : VInput) (w : String),
      validate_eth_address v = .ok w → validate_eth_address (.str w) = .ok w) ∧
    (∀ (v : VInput) (w : String),
      validate_keccak256 v = .ok w → validate_keccak256 (.str w) = .ok w) := by
  constructor
  · intro v w h
    unfold validate_eth_address at h ⊢
    split at h
    case isTrue hb =>
      obtain rfl : w = String.mk (addZx (vChars v)) := (Except.ok.inj h).symm
      have htake : (addZx (vChars v)).take 2 = ['0', 'x'] := pyDollarMatch_take2 hb
      have hvc : vChars (VInput.str (String.mk (addZx (vChars v)))) = addZx (vChars v) := rfl
      rw [hvc, addZx_of_take2 htake, if_pos hb]
    case isFalse => exact absurd h (by simp)
  · intro v w h
    unfold validate_keccak256 at h ⊢
    split at h
    case isTrue hb =>
      obtain rfl : w = String.mk (addZx (vChars v)) := (Except.ok.inj h).symm
      have htake : (addZx (vChars v)).take 2 = ['0', 'x'] := pyDollarMatch_take2 hb
      have hvc : vChars (VInput.str (String.mk (addZx (vChars v)))) = addZx (vChars v) := rfl
      rw [hvc, addZx_of_take2 htake, if_pos hb]
    case isFalse => exact absurd h (by simp)

/-- Claim C7, witness: idempotence applied at an accepted address and an
accepted hash. -/
theorem claim7_witness :
    validate_eth_address (.str mixedTestAddr) = .ok mixedTestAddr ∧
    validate_keccak256 (.str plainHashC) = .ok plainHashC :=
  ⟨claim7_validators_idempotent.1 (.str mixedTestAddr) mixedTestAddr rfl,
   claim7_validators_idempotent.2 (.str plainHashC) plainHashC rfl⟩

/-- Claim C8: the two hash validators do not accept the same inputs — a
64-hex body with one trailing newline passes `validate_keccak256` (the
`$`-anchored regex matches before the newline) but fails the exact
66-character check of `validate_keccak_or_padded`. -/
theorem claim8_validators_disagree :
    validate_keccak256 (.str newlineHashB) = .ok newlineHashB ∧
    validate_keccak_or_padded (.str newlineHashB)
      = .error ("Invalid hash format: expected 66 characters (0x + 64 hex), got 67: "
          ++ newlineHashB) :=
  ⟨rfl, rfl⟩

/-- Claim C2: the digest signed by `sign_clob_auth_message` is
`Keccak256(0x1901 ‖ domainSeparator ‖ hashStruct(authStruct))`, with
`hashStruct = Keccak256(typeHash(ClobAuth) ‖ encodeValue(address) ‖
Keccak256(timestampString) ‖ abiEncode(nonce) ‖ Keccak256(message))`:
fields in declaration order, the address left-padded to 32 bytes, string
fields Keccak-hashed, the nonce 32-byte big-endian.  The second conjunct
ties the digest to what the signer actually signs. -/
theorem claim2_digest_structure (signer : Signer) (timestamp : Int) (nonce : Nat) :
    clobAuthDigest signer timestamp nonce =
      keccakBytes ([0x19, 0x01]
        ++ domainSeparator CLOB_DOMAIN_NAME CLOB_VERSION (signer_get_chain_id signer)
        ++ keccakBytes (typeHashOf clobAuthTypeString
          ++ be32 (hexNatOf (signer_address signer))
          ++ keccakBytes (utf8Bytes (toString timestamp))
          ++ be32 nonce
          ++ keccakBytes (utf8Bytes MSG_TO_SIGN))) ∧
    sign_clob_auth_message signer timestamp nonce =
      pyPrependZx (signer_sign signer
        (pyPrependZx (String.mk (hexCharsOfBytes (clobAuthDigest signer timestamp nonce))))) :=
  ⟨rfl, rfl⟩

/-- Claim C4: signing is deterministic — two signers with the same private
key and chain id produce identical signature strings for the same
timestamp and nonce, and the domain separator is a function of
(name, version, chainId) alone. -/
theorem claim4_signing_deterministic :
    (∀ (s1 s2 : Signer) (t : Int) (n : Nat),
      s1.private_key = s2.private_key → s1.chain_id = s2.chain_id →
      sign_clob_auth_message s1 t n = sign_clob_auth_message s2 t n) ∧
    (∀ (n1 n2 v1 v2 : String) (c1 c2 : Nat),
      n1 = n2 → v1 = v2 → c1 = c2 →
      domainSeparator n1 v1 c1 = domainSeparator n2 v2 c2) := by
  constructor
  · intro s1 s2 t n hpk hc
    cases s1 with
    | mk pk1 ch1 =>
      cases s2 with
      | mk pk2 ch2 =>
        change pk1 = pk2 at hpk
        change ch1 = ch2 at hc
        subst hpk
        subst hc
        rfl
  · intro n1 n2 v1 v2 c1 c2 h1 h2 h3
    subst h1
    subst h2
    subst h3
    rfl

/-- Claim C4, witness: the determinism theorem applied at a concrete
signer, timestamp 1700000000 and nonce 1, and at the concrete CLOB domain
triple with chain id 137. -/
theorem claim4_witness :
    sign_clob_auth_message ⟨witnessKeyHex, 137⟩ 1700000000 1
      = sign_clob_auth_message ⟨witnessKeyHex, 137⟩ 1700000000 1 ∧
    domainSeparator "ClobAuthDomain" "1" 137 = domainSeparator "ClobAuthDomain" "1" 137 :=
  ⟨claim4_signing_deterministic.1 ⟨witnessKeyHex, 137⟩ ⟨witnessKeyHex, 137⟩ 1700000000 1 rfl rfl,
   claim4_signing_deterministic.2 "ClobAuthDomain" "ClobAuthDomain" "1" "1" 137 137 rfl rfl rfl⟩

/-- Claim C5: for every signer, timestamp and nonce, the returned value is
`0x` followed by exactly 130 hex characters (the hex of a 65-byte r‖s‖v
signature, so 132 characters in total). -/
theorem claim5_signature_format (signer : Signer) (timestamp : Int) (nonce : Nat) :
    (sign_clob_auth_message signer timestamp nonce).data.take 2 = ['0', 'x'] ∧
    (sign_clob_auth_message signer timestamp nonce).length = 132 ∧
    ((sign_clob_auth_message signer timestamp nonce).data.drop 2).all isHexChar = true := by
  have hout : sign_clob_auth_message signer timestamp nonce =
      String.mk ('0' :: 'x' :: hexCharsOfBytes (sigBytes (ecdsaSign
        (parseKeyD signer.private_key)
        (hexNatOf (pyPrependZx (String.mk (hexCharsOfBytes
          (clobAuthDigest signer timestamp nonce)))))))) := by
    unfold sign_clob_auth_message signer_sign
    rw [pyPrependZx, if_pos]
    rfl
  refine ⟨?_, ?_, ?_⟩
  · rw [hout]
    rfl
  · rw [hout]
    show ('0' :: 'x' :: hexCharsOfBytes _).length = 132
    rw [List.length_cons, List.length_cons, length_hexCharsOfBytes, length_sigBytes]
  · rw [hout]
    show (('0' :: 'x' :: hexCharsOfBytes _).drop 2).all isHexChar = true
    rw [List.drop_succ_cons, List.drop_succ_cons, List.drop_zero]
    exact all_isHexChar_hexCharsOfBytes _

/-- Claim C9: `Signer` construction fails when the private key or the
chain id is absent, and succeeds storing both when both are present and
the key is well-formed. -/
theorem claim9_signer_construction :
    (∀ c : Option Nat, isErr (mkSigner none c) = true) ∧
    (∀ p : Option String, isErr (mkSigner p none) = true) ∧
    (∀ (pk : String) (cid k : Nat), parseKey pk = some k →
      mkSigner (some pk) (some cid) = .ok ⟨pk, cid⟩) := by
  refine ⟨fun c => rfl, fun p => ?_, fun pk cid k h => ?_⟩
  · cases p <;> rfl
  · simp [mkSigner, h]

/-- Claim C9, witness: construction succeeds at a concrete well-formed
32-byte key and chain id 137, storing both. -/
theorem claim9_witness :
    parseKey witnessKeyHex = some 1 ∧
    mkSigner (some witnessKeyHex) (some 137) = .ok ⟨witnessKeyHex, 137⟩ :=
  ⟨rfl, claim9_signer_construction.2.2 witnessKeyHex 137 1 rfl⟩

/-- Claim C10: the balance validator rescales — a decimal-integer string
balance parses to that integer divided by 10^6, and a numeric balance is
likewise divided by 10^6 (floats modelled as exact rationals). -/
theorem claim10_balance_rescaled :
    (∀ (s : String) (n : Int), pyInt s = some n →
      parse_balance (.bstr s) = .ok ((n : ℚ) / 10 ^ 6)) ∧
    (∀ q : ℚ, parse_balance (.bnum q) = .ok (q / 10 ^ 6)) := by
  refine ⟨fun s n h => ?_, fun q => rfl⟩
  simp [parse_balance, h]

/-- Claim C10, witness: the string "2500000" parses to 2500000 / 10^6. -/
theorem claim10_witness :
    pyInt "2500000" = some 2500000 ∧
    parse_balance (.bstr "2500000") = .ok ((2500000 : ℚ) / 10 ^ 6) :=
  ⟨rfl, claim10_balance_rescaled.1 "2500000" 2500000 rfl⟩
